import Mathlib

/-!
Verification of the trencat/train repository (Go).

The development shallowly embeds the `core` package (the dynamics engine:
`UpdateSensorsAcceleration`, `SetRoute`, `popRoute`, `getRoute`, `addRoute`,
the `Warnings` aggregate) and the `atp` package's state machine
(`canSet`, `set`, `get`, `prev`).

Modelling conventions:
* Go `float64` quantities are modelled as exact rationals `ℚ`; wall-clock
  `time.Time` instants and `time.Duration` values are rationals counting
  seconds, so `until.Sub(prev.Time).Seconds()` becomes plain subtraction.
* `math.Sin` is passed in explicitly as a function parameter `sinQ : ℚ → ℚ`;
  every theorem is quantified over it (no claim depends on values of sine).
* `math.Inf(-1)`, the emergency-brake sentinel, is the `FloatVal.negInf`
  constructor; ordinary finite values are `FloatVal.fin x`.  The comparisons
  the Go code performs on a possibly `-∞` setpoint are `FloatVal.ltv` /
  `FloatVal.gtv`.
* Fallible Go functions return `Except`; the unguarded slice index
  `route[0]` in `SetRoute` (a Go runtime panic) is modelled by the
  `GoPanic` error layer.
-/

namespace core

/-- Track specifications (struct `Track`, core.go). -/
structure Track where
  id : Int
  length : ℚ
  maxVelocity : ℚ
  slope : ℚ
  bendRadius : ℚ
  tunnel : Bool
deriving DecidableEq

/-- Train specifications (struct `Train`, core.go). -/
structure Train where
  id : Int
  mass : ℚ
  massFactor : ℚ
  length : ℚ
  maxTraction : ℚ
  maxBrake : ℚ
  maxVelocity : ℚ
  resistanceLin : ℚ
  resistanceQua : ℚ
deriving DecidableEq

/-- A Go `float64` that may hold the `math.Inf(-1)` emergency-brake
sentinel.  Finite values are exact rationals. -/
inductive FloatVal where
  | negInf
  | fin (x : ℚ)
deriving DecidableEq

/-- The Go comparison `v < y` where `v` may be `-∞`. -/
def FloatVal.ltv : FloatVal → ℚ → Prop
  | .negInf, _ => True
  | .fin x, y => x < y

instance (v : FloatVal) (y : ℚ) : Decidable (v.ltv y) :=
  match v with
  | .negInf => isTrue trivial
  | .fin x => inferInstanceAs (Decidable (x < y))

/-- The Go comparison `v > y` where `v` may be `-∞`. -/
def FloatVal.gtv : FloatVal → ℚ → Prop
  | .negInf, _ => False
  | .fin x, y => y < x

instance (v : FloatVal) (y : ℚ) : Decidable (v.gtv y) :=
  match v with
  | .negInf => isFalse id
  | .fin x => inferInstanceAs (Decidable (y < x))

/-- Extract the rational of a finite value.  The Go code only reads the
setpoint as a number on paths where it is provably not `-∞` (the first
clamp branch requires `setpoint > 0`, the warning in the second is guarded
by `setpoint != math.Inf(-1)`, and the within-limits branch is unreachable
for `-∞` because `-∞ < maxDeceleration` always holds); the `negInf` case
of this projection is therefore never semantically relevant. -/
def FloatVal.toQ : FloatVal → ℚ
  | .negInf => 0
  | .fin x => x

/-- Struct `Setpoint` (core.go): commanded acceleration and issue time. -/
structure Setpoint where
  value : FloatVal
  time : ℚ
deriving DecidableEq

/-- Constant `VelocityError` (warnings.go). -/
def VelocityError : String := "Velocity"

/-- Constant `AccelerationError` (warnings.go). -/
def AccelerationError : String := "Acceleration"

/-- Constant `ForceError` (warnings.go). -/
def ForceError : String := "Force"

/-- Struct `OutOfBounds` (warnings.go).  Fields the Go code leaves unset
take the zero value `0`. -/
structure OutOfBounds where
  type : String
  min : ℚ
  max : ℚ
  value : ℚ
deriving DecidableEq

/-- Struct `Heartbeat` (warnings.go). -/
structure Heartbeat where
  lastTime : ℚ
  threshold : ℚ
deriving DecidableEq

/-- Struct `Warnings` (warnings.go): ordered sequences of each variant. -/
structure Warnings where
  outOfBounds : List OutOfBounds := []
  heartbeat : List Heartbeat := []
deriving DecidableEq

/-- Method `Warnings.Any` (warnings.go). -/
def Warnings.Any (w : Warnings) : Bool :=
  decide (1 ≤ w.outOfBounds.length) || decide (1 ≤ w.heartbeat.length)

/-- Method `Warnings.Append` specialised to the `OutOfBounds` arm of its
type switch (warnings.go).  The dynamic dispatch never fails for this
argument type. -/
def Warnings.appendOOB (w : Warnings) (v : OutOfBounds) : Warnings :=
  { w with outOfBounds := w.outOfBounds ++ [v] }

/-- Method `Warnings.Append` specialised to the `Heartbeat` arm of its
type switch (warnings.go). -/
def Warnings.appendHB (w : Warnings) (v : Heartbeat) : Warnings :=
  { w with heartbeat := w.heartbeat ++ [v] }

/-- Struct `Sensors` (core.go): dynamic data collected each tick. -/
@[ext]
structure Sensors where
  time : ℚ
  setpoint : Setpoint
  position : ℚ
  velocity : ℚ
  acceleration : ℚ
  tractionForce : ℚ
  brakingForce : ℚ
  tractionPower : ℚ
  brakingPower : ℚ
  mass : ℚ
  trackID : Int
  relPosition : ℚ
  slope : ℚ
  bendRadius : ℚ
  tunnel : Bool
  resistance : ℚ
  basicRes : ℚ
  slopeRes : ℚ
  curveRes : ℚ
  tunnelRes : ℚ
  lineRes : ℚ
  numPassengers : Int
  warnings : Warnings
  alarms : Warnings
deriving DecidableEq

/-- Struct `Core` (core.go): the train spec, the known tracks (a Go map
from track ID), the route as the ordered list of track IDs, and the last
sensors. -/
structure Core where
  train : Train
  tracks : Int → Option Track
  route : List Int
  sensors : Sensors

/-- Errors returned by the core package (all are `errors.Errorf` values in
Go; only their identity matters here). -/
inductive CoreErr where
  | routeIndex (index : Int)
  | trackMissing (index : Int) (trackID : Int)
  | headMismatch
deriving DecidableEq

/-- A Go runtime panic (index out of range), used by `SetRoute`'s
unguarded `route[0]`. -/
inductive GoPanic where
  | indexOutOfRange
deriving DecidableEq

/-- Method `getRoute` (core.go): the track at the given position of the
route, failing when the index is out of bounds or the track ID is not in
the map. -/
def Core.getRoute (c : Core) (index : Int) : Except CoreErr Track :=
  if (c.route.length : Int) ≤ index ∨ index < 0 then
    .error (.routeIndex index)
  else
    let trackID := c.route.getD index.toNat 0
    match c.tracks trackID with
    | some track => .ok track
    | none => .error (.trackMissing index trackID)

/-- Method `popRoute` (core.go): delete `route[0]`; no effect on an empty
route. -/
def Core.popRoute (c : Core) : Core :=
  if c.route.length = 0 then c
  else { c with route := c.route.tail }

/-- Method `addRoute` (core.go): insert every track of the new route into
the track map (overwriting) and replace the route by the list of its IDs.
The Go `TODO: Validate tracks` is not implemented, so no error ever
occurs. -/
def Core.addRoute (c : Core) (route : List Track) : Core :=
  let tracks := route.foldl
    (fun (m : Int → Option Track) (track : Track) => Function.update m track.id (some track))
    c.tracks
  { c with tracks := tracks, route := route.map (fun track => track.id) }

/-- Method `SetRoute` (core.go).  The outer `Except GoPanic` layer records
that the Go code evaluates `route[0]` with no length guard: when the
current route is non-empty and the argument is empty this is an
index-out-of-range runtime panic. -/
def Core.SetRoute (c : Core) (route : List Track) : Except GoPanic (Except CoreErr Core) :=
  if 0 < c.route.length then
    match c.getRoute 0 with
    | .error e => .ok (.error e)
    | .ok currentTrack =>
      match route.head? with
      | none => .error .indexOutOfRange
      | some head =>
        if head.id ≠ currentTrack.id then .ok (.error .headMismatch)
        else .ok (.ok (c.addRoute route))
  else
    .ok (.ok (c.addRoute route))

/-- Constant `gravity` (core.go): `9.80665`. -/
def gravity : ℚ := 980665 / 100000

/-- The hardcoded heartbeat threshold `updateTimeout` of
`UpdateSensorsAcceleration` (core.go): 5 seconds. -/
def updateTimeout : ℚ := 5

/-- Step `deltaSec := until.Sub(prev.Time).Seconds()` of
`UpdateSensorsAcceleration`. -/
def dSec (prev : Sensors) (untilT : ℚ) : ℚ := untilT - prev.time

/-- Step `new.Mass = c.train.Mass + float64(new.NumPassengers)*70` of
`UpdateSensorsAcceleration`. -/
def newMass (train : Train) (prev : Sensors) : ℚ :=
  train.mass + (prev.numPassengers : ℚ) * 70

/-- Step `new.Velocity = math.Max(0.0, prev.Velocity+deltaSec*prev.Acceleration)`
of `UpdateSensorsAcceleration` (the integrated velocity, before the
no-reverse clamp). -/
def newVelocity (prev : Sensors) (untilT : ℚ) : ℚ :=
  max 0 (prev.velocity + dSec prev untilT * prev.acceleration)

/-- Step `new.Position = prev.Position + 0.5*(prev.Velocity+new.Velocity)*deltaSec`
of `UpdateSensorsAcceleration`. -/
def newPosition (prev : Sensors) (untilT : ℚ) : ℚ :=
  prev.position + (1 / 2) * (prev.velocity + newVelocity prev untilT) * dSec prev untilT

/-- Step updating `new.RelPosition` of `UpdateSensorsAcceleration`: reset
to the travelled distance when the segment just advanced, accumulate
otherwise. -/
def newRelPosition (prev : Sensors) (untilT : ℚ) (beginNewTrack : Bool) : ℚ :=
  if beginNewTrack then
    (1 / 2) * (prev.velocity + newVelocity prev untilT) * dSec prev untilT
  else
    prev.relPosition + (1 / 2) * (prev.velocity + newVelocity prev untilT) * dSec prev untilT

/-- The two velocity `OutOfBounds` warnings of `UpdateSensorsAcceleration`
(train limit first, then track limit), in Go append order. -/
def velocityWarnings (train : Train) (track : Track) (v : ℚ) : List OutOfBounds :=
  (if train.maxVelocity < v then
    [{ type := VelocityError, min := 0, max := train.maxVelocity, value := v }] else []) ++
  (if track.maxVelocity < v then
    [{ type := VelocityError, min := 0, max := track.maxVelocity, value := v }] else [])

/-- Step `new.SlopeRes = new.Mass * gravity * math.Sin(new.Slope)` of
`UpdateSensorsAcceleration`. -/
def slopeResF (sinQ : ℚ → ℚ) (mass slope : ℚ) : ℚ :=
  mass * gravity * sinQ slope

/-- Step computing `new.BasicRes` of `UpdateSensorsAcceleration`: zero on
a flat track at rest. -/
def basicResF (train : Train) (mass slope v : ℚ) : ℚ :=
  if slope ≠ 0 ∨ v ≠ 0 then
    mass * (train.resistanceLin + train.resistanceQua * v * v)
  else 0

/-- Step computing `new.CurveRes` of `UpdateSensorsAcceleration`: zero at
rest; zero for `bendRadius ≤ 100` (the commented `Danger!` branch); the
two Roeckl-style formulas otherwise. -/
def curveResF (track : Track) (mass v : ℚ) : ℚ :=
  if v ≠ 0 then
    if track.bendRadius ≤ 100 then 0
    else if track.bendRadius < 300 then (491 / 100) * mass / (track.bendRadius - 55)
    else (63 / 10) * mass / (track.bendRadius - 55)
  else 0

/-- Step computing `new.TunnelRes` of `UpdateSensorsAcceleration`
(`1.296e-9` is exactly `1296/10^12`). -/
def tunnelResF (track : Track) (relPos v : ℚ) : ℚ :=
  if track.tunnel then
    (1296 / 1000000000000) * max (track.length - relPos) 0 * gravity * v * v
  else 0

/-- Step `maxAcceleration := (train.MaxTraction - new.Resistance) / (new.Mass * train.MassFactor)`
of `UpdateSensorsAcceleration`. -/
def maxAccF (train : Train) (mass resistance : ℚ) : ℚ :=
  (train.maxTraction - resistance) / (mass * train.massFactor)

/-- Step `maxDeceleration := ((-1)*train.MaxBrake - new.Resistance) / (new.Mass * train.MassFactor)`
of `UpdateSensorsAcceleration`. -/
def maxDecF (train : Train) (mass resistance : ℚ) : ℚ :=
  ((-1) * train.maxBrake - resistance) / (mass * train.massFactor)

/-- The acceleration-clamping if-chain of `UpdateSensorsAcceleration`:
returns the clamped acceleration and the `Acceleration` warnings it
appends.  A positive setpoint above `maxAcceleration` warns and clamps
down; a negative setpoint below `maxDeceleration` clamps up and warns
unless it is the `-∞` emergency brake; otherwise the setpoint is taken
verbatim. -/
def accClampF (spv : FloatVal) (maxAcc maxDec : ℚ) : ℚ × List OutOfBounds :=
  if spv.gtv 0 ∧ spv.gtv maxAcc then
    (maxAcc, [{ type := AccelerationError, min := maxDec, max := maxAcc, value := spv.toQ }])
  else if spv.ltv 0 ∧ spv.ltv maxDec then
    (maxDec,
      if spv = .negInf then []
      else [{ type := AccelerationError, min := maxDec, max := maxAcc, value := spv.toQ }])
  else
    (spv.toQ, [])

/-- The first reverse guard of `UpdateSensorsAcceleration`:
`if setpoint < 0.0 && new.Velocity < 0.01` zero both the acceleration and
the velocity (reverse gear not allowed).  Input and output are the
`(acceleration, velocity)` pair. -/
def reverseGuard1 (spv : FloatVal) (a v : ℚ) : ℚ × ℚ :=
  if spv.ltv 0 ∧ v < 1 / 100 then (0, 0) else (a, v)

/-- The second reverse guard of `UpdateSensorsAcceleration`:
`if new.Velocity == 0.01 && new.Acceleration < 0.0` zero the
acceleration. -/
def reverseGuard2 (p : ℚ × ℚ) : ℚ × ℚ :=
  if p.2 = 1 / 100 ∧ p.1 < 0 then (0, p.2) else p

/-- The two reverse guards of `UpdateSensorsAcceleration` in source
order. -/
def afterGuards (spv : FloatVal) (a v : ℚ) : ℚ × ℚ :=
  reverseGuard2 (reverseGuard1 spv a v)

/-- Output of the force-and-power block of `UpdateSensorsAcceleration`. -/
structure ForceOut where
  tractionForce : ℚ
  tractionPower : ℚ
  brakingForce : ℚ
  brakingPower : ℚ
  warns : List OutOfBounds
deriving DecidableEq

/-- The force-and-power block of `UpdateSensorsAcceleration`, transcribed
verbatim.  Note the braking arm: when `-force > train.MaxBrake` the Go
code assigns `force = train.MaxBrake` (positive) and then
`new.BrakingForce = -force`, so the recorded braking force is
`-train.MaxBrake`. -/
def forceF (train : Train) (mass acceleration resistance velocity : ℚ) : ForceOut :=
  let force := mass * train.massFactor * acceleration + resistance
  if 0 ≤ force then
    let warns :=
      if train.maxTraction < force then
        [{ type := ForceError, min := 0, max := train.maxTraction, value := force }]
      else []
    let force1 := if train.maxTraction < force then train.maxTraction else force
    { tractionForce := force1, tractionPower := force1 * velocity,
      brakingForce := 0, brakingPower := 0, warns := warns }
  else
    let warns :=
      if train.maxBrake < -force then
        [{ type := ForceError, min := 0, max := train.maxBrake, value := -force }]
      else []
    let force1 := if train.maxBrake < -force then train.maxBrake else force
    { tractionForce := 0, tractionPower := 0,
      brakingForce := -force1, brakingPower := -force1 * velocity, warns := warns }

/-- The heartbeat check of `UpdateSensorsAcceleration`:
`if until.Sub(prev.Setpoint.Time) >= updateTimeout` append a `Heartbeat`
alarm carrying the new setpoint's time. -/
def heartbeatF (prevSpTime spTime untilT : ℚ) : List Heartbeat :=
  if updateTimeout ≤ untilT - prevSpTime then
    [{ lastTime := spTime, threshold := updateTimeout }]
  else []

/-- Step `new.LineRes = new.SlopeRes + new.CurveRes + new.TunnelRes` of
`UpdateSensorsAcceleration`, with each summand as the Go code computes
it from the integrated velocity and the new relative position. -/
def csLineRes (sinQ : ℚ → ℚ) (train : Train) (track : Track) (prev : Sensors)
    (untilT : ℚ) (beginNewTrack : Bool) : ℚ :=
  slopeResF sinQ (newMass train prev) track.slope +
  curveResF track (newMass train prev) (newVelocity prev untilT) +
  tunnelResF track (newRelPosition prev untilT beginNewTrack) (newVelocity prev untilT)

/-- Step `new.Resistance = new.BasicRes + new.LineRes` of
`UpdateSensorsAcceleration`. -/
def csRes (sinQ : ℚ → ℚ) (train : Train) (track : Track) (prev : Sensors)
    (untilT : ℚ) (beginNewTrack : Bool) : ℚ :=
  basicResF train (newMass train prev) track.slope (newVelocity prev untilT) +
  csLineRes sinQ train track prev untilT beginNewTrack

/-- The acceleration-clamping step of `UpdateSensorsAcceleration` with
its bounds instantiated. -/
def csClamp (sinQ : ℚ → ℚ) (train : Train) (track : Track) (prev : Sensors)
    (sp : Setpoint) (untilT : ℚ) (beginNewTrack : Bool) : ℚ × List OutOfBounds :=
  accClampF sp.value
    (maxAccF train (newMass train prev) (csRes sinQ train track prev untilT beginNewTrack))
    (maxDecF train (newMass train prev) (csRes sinQ train track prev untilT beginNewTrack))

/-- The `(acceleration, velocity)` pair of `UpdateSensorsAcceleration`
after the clamp and the two reverse guards. -/
def csAV (sinQ : ℚ → ℚ) (train : Train) (track : Track) (prev : Sensors)
    (sp : Setpoint) (untilT : ℚ) (beginNewTrack : Bool) : ℚ × ℚ :=
  afterGuards sp.value (csClamp sinQ train track prev sp untilT beginNewTrack).1
    (newVelocity prev untilT)

/-- The force-and-power block of `UpdateSensorsAcceleration` with its
inputs instantiated. -/
def csForce (sinQ : ℚ → ℚ) (train : Train) (track : Track) (prev : Sensors)
    (sp : Setpoint) (untilT : ℚ) (beginNewTrack : Bool) : ForceOut :=
  forceF train (newMass train prev)
    (csAV sinQ train track prev sp untilT beginNewTrack).1
    (csRes sinQ train track prev untilT beginNewTrack)
    (csAV sinQ train track prev sp untilT beginNewTrack).2

/-- The straight-line body of `UpdateSensorsAcceleration` after the track
has been resolved: every field of the new `Sensors` as the Go code
computes it.  Position, relative position, the velocity warnings and all
resistances use the integrated velocity `newVelocity` (the Go code
evaluates them before the no-reverse clamp may zero `new.Velocity`);
acceleration, final velocity, forces and powers come after the clamp. -/
def computeSensors (sinQ : ℚ → ℚ) (train : Train) (track : Track) (prev : Sensors)
    (sp : Setpoint) (untilT : ℚ) (beginNewTrack : Bool) : Sensors :=
  { time := untilT
    setpoint := sp
    position := newPosition prev untilT
    velocity := (csAV sinQ train track prev sp untilT beginNewTrack).2
    acceleration := (csAV sinQ train track prev sp untilT beginNewTrack).1
    tractionForce := (csForce sinQ train track prev sp untilT beginNewTrack).tractionForce
    brakingForce := (csForce sinQ train track prev sp untilT beginNewTrack).brakingForce
    tractionPower := (csForce sinQ train track prev sp untilT beginNewTrack).tractionPower
    brakingPower := (csForce sinQ train track prev sp untilT beginNewTrack).brakingPower
    mass := newMass train prev
    trackID := track.id
    relPosition := newRelPosition prev untilT beginNewTrack
    slope := track.slope
    bendRadius := track.bendRadius
    tunnel := track.tunnel
    resistance := csRes sinQ train track prev untilT beginNewTrack
    basicRes := basicResF train (newMass train prev) track.slope (newVelocity prev untilT)
    slopeRes := slopeResF sinQ (newMass train prev) track.slope
    curveRes := curveResF track (newMass train prev) (newVelocity prev untilT)
    tunnelRes := tunnelResF track (newRelPosition prev untilT beginNewTrack)
      (newVelocity prev untilT)
    lineRes := csLineRes sinQ train track prev untilT beginNewTrack
    numPassengers := prev.numPassengers
    warnings := { outOfBounds :=
                    velocityWarnings train track (newVelocity prev untilT) ++
                    (csClamp sinQ train track prev sp untilT beginNewTrack).2 ++
                    (csForce sinQ train track prev sp untilT beginNewTrack).warns,
                  heartbeat := [] }
    alarms := { outOfBounds := [],
                heartbeat := heartbeatF prev.setpoint.time sp.time untilT } }

/-- Method `UpdateSensorsAcceleration` (core.go).  The route head is
fetched; when `prev.RelPosition > track.Length` the head is popped and
the new head adopted (failing when the route is exhausted); then the body
computes the new sensors, which also replace `c.sensors`.  Note that no
validation of `until - prev.Time` is performed anywhere. -/
def Core.UpdateSensorsAcceleration (sinQ : ℚ → ℚ) (c : Core) (sp : Setpoint)
    (untilT : ℚ) : Except CoreErr (Sensors × Core) :=
  match c.getRoute 0 with
  | .error e => .error e
  | .ok track0 =>
    if track0.length < c.sensors.relPosition then
      match c.popRoute.getRoute 0 with
      | .error e => .error e
      | .ok track =>
        let new := computeSensors sinQ c.train track c.sensors sp untilT true
        .ok (new, { c.popRoute with sensors := new })
    else
      let new := computeSensors sinQ c.train track0 c.sensors sp untilT false
      .ok (new, { c with sensors := new })

/-- Method `UpdateSensors` (core.go): a wrapper around
`UpdateSensorsAcceleration`. -/
def Core.UpdateSensors (sinQ : ℚ → ℚ) (c : Core) (sp : Setpoint) (untilT : ℚ) :
    Except CoreErr (Sensors × Core) :=
  c.UpdateSensorsAcceleration sinQ sp untilT

end core

namespace atp

/-- Type `State` (statemachine.go): the ATP finite-state machine's
states. -/
inductive State where
  | Init
  | On
  | Active
  | Warning
  | Alarm
  | Panic
  | Shutdown
  | Off
deriving DecidableEq

/-- Struct `stateMachine` (statemachine.go). -/
structure stateMachine where
  state : State
  prevState : State
deriving DecidableEq

/-- Function `newStateMachine` (statemachine.go): initial state `On`,
previous `Init`. -/
def newStateMachine : stateMachine :=
  { state := .On, prevState := .Init }

/-- Method `canSet` (statemachine.go), transcribed clause by clause.
Note the unconditional `(to == Off)` disjunct: a transition to `Off` is
permitted from every state. -/
def stateMachine.canSet (sm : stateMachine) (tgt : State) : Bool :=
  let f := sm.state
  (f == tgt) ||
  (f == .On && tgt == .Active) ||
  (f == .Active && tgt == .On) ||
  (f == .On && tgt == .Warning) ||
  (f == .Active && tgt == .Warning) ||
  (f == .Warning && tgt == .Active) ||
  (tgt == .Alarm) ||
  (tgt == .Panic) ||
  (tgt == .Shutdown) ||
  (f == .Alarm && tgt == .On) ||
  (tgt == .Off)

/-- Method `set` (statemachine.go): a no-op when already in the target
state, an `IllegalTransition` error when `canSet` refuses, otherwise the
state advances and the previous state is recorded. -/
def stateMachine.set (sm : stateMachine) (tgt : State) : Except String stateMachine :=
  if sm.state = tgt then .ok sm
  else if sm.canSet tgt then .ok { state := tgt, prevState := sm.state }
  else .error "IllegalTransition"

/-- Method `get` (statemachine.go). -/
def stateMachine.get (sm : stateMachine) : State := sm.state

/-- Method `prev` (statemachine.go). -/
def stateMachine.prev (sm : stateMachine) : State := sm.prevState

end atp

section Examples

open core

/-- A sample sine model (the small-angle identity) used to instantiate
the `sinQ` parameter in concrete evaluations; every general theorem is
quantified over arbitrary `sinQ`. -/
def sinSample : ℚ → ℚ := fun x => x

/-- A sample train used in concrete evaluations. -/
def exTrain : Train :=
  { id := 1, mass := 1000, massFactor := 1, length := 100, maxTraction := 1000,
    maxBrake := 100, maxVelocity := 10, resistanceLin := 0, resistanceQua := 0 }

/-- A small sample train (unit mass, unit limits). -/
def exTrainSmall : Train :=
  { id := 2, mass := 1, massFactor := 1, length := 10, maxTraction := 1,
    maxBrake := 1, maxVelocity := 100, resistanceLin := 0, resistanceQua := 0 }

/-- A flat straight sample track. -/
def exTrackFlat : Track :=
  { id := 1, length := 1000, maxVelocity := 10, slope := 0, bendRadius := 1000,
    tunnel := false }

/-- A steeply descending sample track (slope `-1/2` rad). -/
def exTrackDown : Track :=
  { id := 1, length := 1000, maxVelocity := 10, slope := -1/2, bendRadius := 50,
    tunnel := false }

/-- A steeply ascending sample track (slope `1/2` rad). -/
def exTrackUp : Track :=
  { id := 1, length := 1000, maxVelocity := 10, slope := 1/2, bendRadius := 50,
    tunnel := false }

/-- Sample sensors: a train at rest at the origin of its track at time 0. -/
def exSensors : Sensors :=
  { time := 0, setpoint := { value := .fin 0, time := 0 }, position := 0, velocity := 0,
    acceleration := 0, tractionForce := 0, brakingForce := 0, tractionPower := 0,
    brakingPower := 0, mass := 1000, trackID := 1, relPosition := 0, slope := 0,
    bendRadius := 1000, tunnel := false, resistance := 0, basicRes := 0, slopeRes := 0,
    curveRes := 0, tunnelRes := 0, lineRes := 0, numPassengers := 0, warnings := {},
    alarms := {} }

/-- A core on the flat track, at rest. -/
def exCoreFlat : Core :=
  { train := exTrain, tracks := fun i => if i = 1 then some exTrackFlat else none,
    route := [1], sensors := exSensors }

/-- A core on the descending track, at rest. -/
def exCoreDown : Core :=
  { train := exTrain, tracks := fun i => if i = 1 then some exTrackDown else none,
    route := [1], sensors := exSensors }

/-- A core on the ascending track, rolling at 1 m/s. -/
def exCoreUp : Core :=
  { train := exTrain, tracks := fun i => if i = 1 then some exTrackUp else none,
    route := [1], sensors := { exSensors with velocity := 1 } }

/-- A core moving at 1 m/s on the flat track with unit train limits. -/
def exCoreSmall : Core :=
  { train := exTrainSmall, tracks := fun i => if i = 1 then some exTrackFlat else none,
    route := [1], sensors := { exSensors with velocity := 1, mass := 1 } }

/-- A 10 m variant of the flat track. -/
def exTrackShort : Track := { exTrackFlat with length := 10 }

/-- A second flat segment with track ID 2. -/
def exTrackNext : Track := { exTrackFlat with id := 2 }

/-- A two-segment core that has overrun its first 10 m segment
(`relPosition = 11 > 10`). -/
def exCoreOverrun : Core :=
  { train := exTrain,
    tracks := fun i =>
      if i = 1 then some exTrackShort
      else if i = 2 then some exTrackNext else none,
    route := [1, 2], sensors := { exSensors with relPosition := 11 } }

/-- The overrun core with no further segment in its route. -/
def exCoreOverrunEnd : Core :=
  { exCoreOverrun with route := [1] }

/-- A core sitting exactly at the end of its 10 m segment
(`relPosition = 10 = length`). -/
def exCoreBoundary : Core :=
  { exCoreOverrun with sensors := { exSensors with relPosition := 10 } }

/-- A zero setpoint issued at time 0. -/
def spZero : Setpoint := { value := .fin 0, time := 0 }

/-- A zero setpoint issued at time 5. -/
def spZero5 : Setpoint := { value := .fin 0, time := 5 }

/-- A zero setpoint issued at time 6. -/
def spZero6 : Setpoint := { value := .fin 0, time := 6 }

/-- A mild braking setpoint (`-1 m/s²`) issued at time 0. -/
def spBrake : Setpoint := { value := .fin (-1), time := 0 }

/-- A braking setpoint of `-7/2 m/s²` issued at time 0. -/
def spMid : Setpoint := { value := .fin (-7/2), time := 0 }

/-- An accelerating setpoint of `2 m/s²` issued at time 0. -/
def spTwo : Setpoint := { value := .fin 2, time := 0 }

/-- Sensors produced by driving `exCoreDown` one second with `spBrake`
(the force-clamp failing input). -/
def exBugSensors : Sensors :=
  computeSensors sinSample exTrain exTrackDown exSensors spBrake 1 false

/-- Sensors produced by driving `exCoreUp` one second with `spMid`
(a setpoint above `a_max` that is not positive). -/
def exC2Sensors : Sensors :=
  computeSensors sinSample exTrain exTrackUp { exSensors with velocity := 1 } spMid 1 false

/-- Sensors produced by driving `exCoreSmall` one second with `spTwo`
(a positive setpoint above `a_max`). -/
def exC2WSensors : Sensors :=
  computeSensors sinSample exTrainSmall exTrackFlat { exSensors with velocity := 1, mass := 1 }
    spTwo 1 false

/-- Sensors produced by driving `exCoreFlat` one second with `spZero`. -/
def exS1 : Sensors :=
  computeSensors sinSample exTrain exTrackFlat exSensors spZero 1 false

/-- Sensors produced by driving `exCoreFlat` one second with `spBrake`. -/
def exC6Sensors : Sensors :=
  computeSensors sinSample exTrain exTrackFlat exSensors spBrake 1 false

/-- Sensors produced by driving `exCoreFlat` backwards to time `-1`. -/
def exSback : Sensors :=
  computeSensors sinSample exTrain exTrackFlat exSensors spZero (-1) false

/-- Sensors produced by driving the moving `exCoreSmall` (velocity 1)
backwards to time `-1`: the trapezoidal position update integrates the
negative `Δt` and the position drops to `-1`. -/
def exSbackMoving : Sensors :=
  computeSensors sinSample exTrainSmall exTrackFlat { exSensors with velocity := 1, mass := 1 }
    spZero (-1) false

/-- Sensors produced by driving `exCoreFlat` to time 5 with `spZero5`
(setpoint elapsed exactly at the 5 s threshold). -/
def exS5 : Sensors :=
  computeSensors sinSample exTrain exTrackFlat exSensors spZero5 5 false

/-- Sensors produced by driving `exCoreFlat` to time 6 with `spZero6`
(the previous setpoint is 6 s stale, so a heartbeat alarm is raised). -/
def exS6 : Sensors :=
  computeSensors sinSample exTrain exTrackFlat exSensors spZero6 6 false

/-- Sensors produced by a second `Δt = 0` call from `exS6` with the same
setpoint (the heartbeat alarm vanishes). -/
def exS6b : Sensors :=
  computeSensors sinSample exTrain exTrackFlat exS6 spZero6 6 false

end Examples

open core

/-- The integrated velocity is never negative (it is clamped by
`math.Max(0.0, ...)`). -/
theorem newVelocity_nonneg (prev : Sensors) (t : ℚ) : 0 ≤ newVelocity prev t :=
  le_max_left 0 _

/-- The second reverse guard never changes the velocity component. -/
theorem reverseGuard2_snd (p : ℚ × ℚ) : (reverseGuard2 p).2 = p.2 := by
  unfold reverseGuard2
  split <;> rfl

/-- The velocity component after both reverse guards. -/
theorem afterGuards_snd (spv : FloatVal) (a v : ℚ) :
    (afterGuards spv a v).2 = if spv.ltv 0 ∧ v < 1 / 100 then 0 else v := by
  unfold afterGuards
  rw [reverseGuard2_snd]
  unfold reverseGuard1
  split <;> rfl

/-- When the no-reverse guard fires, both components are zeroed and the
second guard leaves them untouched. -/
theorem afterGuards_noReverse (spv : FloatVal) (a v : ℚ) (h0 : spv.ltv 0)
    (h1 : v < 1 / 100) : afterGuards spv a v = (0, 0) := by
  unfold afterGuards reverseGuard1
  rw [if_pos ⟨h0, h1⟩]
  unfold reverseGuard2
  norm_num

/-- When neither reverse guard fires, the pair passes through. -/
theorem afterGuards_id (spv : FloatVal) (a v : ℚ) (h0 : ¬ spv.ltv 0)
    (h1 : ¬ (v = 1 / 100 ∧ a < 0)) : afterGuards spv a v = (a, v) := by
  unfold afterGuards reverseGuard1
  rw [if_neg (fun hc => h0 hc.1)]
  unfold reverseGuard2
  rw [if_neg h1]

/-- The force block always zeroes one of the two forces. -/
theorem forceF_mul (train : Train) (mass a res v : ℚ) :
    (forceF train mass a res v).tractionForce * (forceF train mass a res v).brakingForce = 0 := by
  simp only [forceF]
  split_ifs <;> simp

/-- Every successful `UpdateSensorsAcceleration` call returns sensors
computed by `computeSensors` from the previous sensors and some track of
the route. -/
theorem update_ok_shape {sinQ : ℚ → ℚ} {c : Core} {sp : Setpoint} {t : ℚ}
    {s : Sensors} {c' : Core}
    (h : c.UpdateSensorsAcceleration sinQ sp t = .ok (s, c')) :
    ∃ track b, s = computeSensors sinQ c.train track c.sensors sp t b := by
  unfold Core.UpdateSensorsAcceleration at h
  cases h0 : c.getRoute 0 with
  | error e => rw [h0] at h; simp at h
  | ok track0 =>
    rw [h0] at h
    dsimp only at h
    split_ifs at h with hb
    · cases h1 : c.popRoute.getRoute 0 with
      | error e => rw [h1] at h; simp at h
      | ok track =>
        rw [h1] at h
        simp only [Except.ok.injEq, Prod.mk.injEq] at h
        exact ⟨track, true, h.1.symm⟩
    · simp only [Except.ok.injEq, Prod.mk.injEq] at h
      exact ⟨track0, false, h.1.symm⟩

/-- Claim C3 (counterexample): contrary to the transition table, `set(Off)`
succeeds from state `On` (which is neither `Shutdown` nor `Off`), moving
the machine to `Off`. -/
theorem set_Off_from_On_counterexample :
    atp.stateMachine.set { state := .On, prevState := .Init } .Off
        = .ok { state := .Off, prevState := .On } ∧
      atp.State.On ≠ atp.State.Shutdown ∧ atp.State.On ≠ atp.State.Off :=
  ⟨rfl, by decide, by decide⟩

/-- Claim C3 (amended): `canSet` contains the unconditional `to == Off`
disjunct, so `set(Off)` succeeds from every state: it is a no-op when the
state is already `Off` and otherwise moves the machine to `Off`, recording
the old state as previous. -/
theorem set_Off_always_succeeds (sm : atp.stateMachine) :
    ∃ sm', sm.set .Off = .ok sm' ∧ sm'.state = .Off ∧
      (sm.state = .Off → sm' = sm) ∧
      (sm.state ≠ .Off → sm' = { state := .Off, prevState := sm.state }) := by
  by_cases h : sm.state = .Off
  · refine ⟨sm, ?_, h, fun _ => rfl, fun hne => absurd h hne⟩
    unfold atp.stateMachine.set
    rw [if_pos h]
  · have hcs : sm.canSet .Off = true := by
      unfold atp.stateMachine.canSet
      simp
    refine ⟨{ state := .Off, prevState := sm.state }, ?_, rfl, fun he => absurd he h,
      fun _ => rfl⟩
    unfold atp.stateMachine.set
    rw [if_neg h, if_pos hcs]

/-- Claim C10: when the current route is non-empty (with a resolvable
head), `SetRoute` with an empty route slice evaluates `route[0]` with no
length guard and panics with an index-out-of-range error; for every
non-empty input route the call returns normally (either an error value or
the updated core). -/
theorem SetRoute_empty_panics (c : Core) (i : Int) (rest : List Int) (tr : Track)
    (hroute : c.route = i :: rest) (htrack : c.tracks i = some tr) :
    c.SetRoute [] = .error .indexOutOfRange ∧
      ∀ route : List Track, route ≠ [] → ∃ r, c.SetRoute route = .ok r := by
  have hlen : 0 < c.route.length := by rw [hroute]; simp
  have hcond : ¬ ((c.route.length : Int) ≤ 0 ∨ (0 : Int) < 0) := by omega
  have hget : c.getRoute 0 = .ok tr := by
    unfold Core.getRoute
    rw [if_neg hcond]
    simp [hroute, htrack]
  constructor
  · unfold Core.SetRoute
    rw [if_pos hlen, hget]
    rfl
  · intro route hne
    unfold Core.SetRoute
    rw [if_pos hlen, hget]
    dsimp only
    cases route with
    | nil => exact absurd rfl hne
    | cons hd tl =>
      simp only [List.head?_cons]
      by_cases hid : hd.id ≠ tr.id
      · exact ⟨.error .headMismatch, by rw [if_pos hid]⟩
      · exact ⟨.ok (c.addRoute (hd :: tl)), by rw [if_neg hid]⟩

/-- Claim C10 (witness): `exCoreFlat` has the non-empty route `[1]` whose
head resolves, and the conclusion holds there. -/
theorem SetRoute_empty_panics_witness :
    exCoreFlat.route = 1 :: [] ∧ exCoreFlat.tracks 1 = some exTrackFlat ∧
      (exCoreFlat.SetRoute [] = .error .indexOutOfRange ∧
        ∀ route : List Track, route ≠ [] → ∃ r, exCoreFlat.SetRoute route = .ok r) :=
  ⟨rfl, rfl, SetRoute_empty_panics exCoreFlat 1 [] exTrackFlat rfl rfl⟩

/-- Claim C5 (counterexample): a successful call can decrease the
position.  The engine accepts `until = -1` from a state at time 0 moving
at 1 m/s (no `Δt` validation exists), and the trapezoidal update
integrates the negative `Δt`: the returned position is `-1`, strictly
below the previous position 0, refuting the unconditional monotonicity
of `position` over all successful calls. -/
theorem position_decrease_counterexample :
    exCoreSmall.UpdateSensorsAcceleration sinSample spZero (-1)
        = .ok (exSbackMoving, { exCoreSmall with sensors := exSbackMoving }) ∧
      exCoreSmall.sensors.position = 0 ∧
      exSbackMoving.position = -1 ∧
      exSbackMoving.position < exCoreSmall.sensors.position :=
  ⟨rfl, by decide,
    by norm_num [exSbackMoving, computeSensors, newPosition, newVelocity, dSec, exSensors,
      spZero, max_def],
    by norm_num [exSbackMoving, computeSensors, newPosition, newVelocity, dSec, exSensors,
      spZero, exCoreSmall, max_def]⟩

/-- Claim C5 (amended): every sensors value produced by a successful
`UpdateSensorsAcceleration` call has non-negative velocity and mutually
exclusive traction and braking forces, unconditionally; the position is
at least the previous sensors' position whenever the previous velocity
is non-negative and the target instant is not before the previous time
(a negative-`Δt` call, which the engine accepts, can decrease it). -/
theorem UpdateSensorsAcceleration_invariants
    (sinQ : ℚ → ℚ) (c : Core) (sp : Setpoint) (t : ℚ) (s : Sensors) (c' : Core)
    (h : c.UpdateSensorsAcceleration sinQ sp t = .ok (s, c')) :
    0 ≤ s.velocity ∧ s.tractionForce * s.brakingForce = 0 ∧
      (0 ≤ c.sensors.velocity → c.sensors.time ≤ t →
        c.sensors.position ≤ s.position) := by
  obtain ⟨track, b, rfl⟩ := update_ok_shape h
  refine ⟨?_, ?_, ?_⟩
  · show 0 ≤ (csAV sinQ c.train track c.sensors sp t b).2
    unfold csAV
    rw [afterGuards_snd]
    split_ifs
    · exact le_refl 0
    · exact newVelocity_nonneg _ _
  · show (csForce sinQ c.train track c.sensors sp t b).tractionForce *
        (csForce sinQ c.train track c.sensors sp t b).brakingForce = 0
    unfold csForce
    exact forceF_mul _ _ _ _ _
  · intro hv ht
    show c.sensors.position ≤ newPosition c.sensors t
    unfold newPosition dSec
    have h1 : 0 ≤ (1 / 2 : ℚ) * (c.sensors.velocity + newVelocity c.sensors t) *
        (t - c.sensors.time) :=
      mul_nonneg (mul_nonneg (by norm_num) (add_nonneg hv (newVelocity_nonneg _ _)))
        (sub_nonneg.mpr ht)
    linarith

/-- Claim C5 (witness): the amended invariants hold for a one-second step
of `exCoreFlat`, whose state satisfies the position-monotonicity
side conditions. -/
theorem UpdateSensorsAcceleration_invariants_witness :
    exCoreFlat.UpdateSensorsAcceleration sinSample spZero 1
        = .ok (exS1, { exCoreFlat with sensors := exS1 }) ∧
      (0 ≤ exS1.velocity ∧ exS1.tractionForce * exS1.brakingForce = 0 ∧
        (0 ≤ exCoreFlat.sensors.velocity → exCoreFlat.sensors.time ≤ (1 : ℚ) →
          exCoreFlat.sensors.position ≤ exS1.position)) :=
  ⟨rfl, UpdateSensorsAcceleration_invariants sinSample exCoreFlat spZero 1 exS1 _ rfl⟩

/-- Claim C6: a successful call with a negative setpoint (including the
`-∞` emergency brake) whose integrated velocity is below `0.01` returns
zero acceleration and zero velocity (the train never reverses). -/
theorem no_reverse_clamp
    (sinQ : ℚ → ℚ) (c : Core) (sp : Setpoint) (t : ℚ) (s : Sensors) (c' : Core)
    (h : c.UpdateSensorsAcceleration sinQ sp t = .ok (s, c'))
    (hsp : sp.value.ltv 0) (hv : newVelocity c.sensors t < 1 / 100) :
    s.acceleration = 0 ∧ s.velocity = 0 := by
  obtain ⟨track, b, rfl⟩ := update_ok_shape h
  have hg : csAV sinQ c.train track c.sensors sp t b = (0, 0) := by
    unfold csAV
    exact afterGuards_noReverse _ _ _ hsp hv
  constructor
  · show (csAV sinQ c.train track c.sensors sp t b).1 = 0
    rw [hg]
  · show (csAV sinQ c.train track c.sensors sp t b).2 = 0
    rw [hg]

/-- Claim C6 (witness): braking at rest keeps `exCoreFlat` stopped. -/
theorem no_reverse_clamp_witness :
    exCoreFlat.UpdateSensorsAcceleration sinSample spBrake 1
        = .ok (exC6Sensors, { exCoreFlat with sensors := exC6Sensors }) ∧
      spBrake.value.ltv 0 ∧ newVelocity exCoreFlat.sensors 1 < 1 / 100 ∧
      (exC6Sensors.acceleration = 0 ∧ exC6Sensors.velocity = 0) :=
  ⟨rfl, by decide, by norm_num [newVelocity, dSec, exCoreFlat, exSensors],
    no_reverse_clamp sinSample exCoreFlat spBrake 1 exC6Sensors _ rfl (by decide)
      (by norm_num [newVelocity, dSec, exCoreFlat, exSensors])⟩

/-- Claim C8 (counterexample): with the previous setpoint issued at time
0 and `until = 5`, the elapsed time equals the 5 s threshold and does not
exceed it, yet the returned sensors carry a heartbeat alarm (the code
compares with `>=`). -/
theorem heartbeat_at_threshold_counterexample :
    exCoreFlat.UpdateSensorsAcceleration sinSample spZero5 5
        = .ok (exS5, { exCoreFlat with sensors := exS5 }) ∧
      (5 : ℚ) - exCoreFlat.sensors.setpoint.time = 5 ∧
      ¬ (5 : ℚ) - exCoreFlat.sensors.setpoint.time > 5 ∧
      exS5.alarms.heartbeat = [{ lastTime := 5, threshold := 5 }] :=
  ⟨rfl, by norm_num [exCoreFlat, exSensors], by norm_num [exCoreFlat, exSensors],
    by norm_num [exS5, computeSensors, heartbeatF, updateTimeout, exSensors, spZero5]⟩

/-- Claim C8 (amended): a successful call records a heartbeat alarm
exactly when the elapsed time between `until` and the previous sensors'
setpoint timestamp is at least (`>=`) the 5 s threshold. -/
theorem heartbeat_iff_threshold
    (sinQ : ℚ → ℚ) (c : Core) (sp : Setpoint) (t : ℚ) (s : Sensors) (c' : Core)
    (h : c.UpdateSensorsAcceleration sinQ sp t = .ok (s, c')) :
    s.alarms.heartbeat ≠ [] ↔ updateTimeout ≤ t - c.sensors.setpoint.time := by
  obtain ⟨track, b, rfl⟩ := update_ok_shape h
  show heartbeatF c.sensors.setpoint.time sp.time t ≠ [] ↔ _
  unfold heartbeatF
  split_ifs with hc <;> simp [hc]

/-- Claim C8 (witness): a stale setpoint (6 s old) at `until = 6` does
record a heartbeat alarm. -/
theorem heartbeat_iff_threshold_witness :
    exCoreFlat.UpdateSensorsAcceleration sinSample spZero6 6
        = .ok (exS6, { exCoreFlat with sensors := exS6 }) ∧
      (exS6.alarms.heartbeat ≠ [] ↔ updateTimeout ≤ (6 : ℚ) - exCoreFlat.sensors.setpoint.time) :=
  ⟨rfl, heartbeat_iff_threshold sinSample exCoreFlat spZero6 6 exS6 _ rfl⟩

/-- Claim C4 (counterexample): calling `UpdateSensorsAcceleration` with
`until = -1`, strictly earlier than the previous sensors' time 0, returns
sensors rather than an error. -/
theorem negative_dt_counterexample :
    exCoreFlat.UpdateSensorsAcceleration sinSample spZero (-1)
        = .ok (exSback, { exCoreFlat with sensors := exSback }) ∧
      (-1 : ℚ) < exCoreFlat.sensors.time :=
  ⟨rfl, by decide⟩

/-- Claim C4 (amended): the engine performs no validation of
`Δt = until - prev.time`; whenever the route head resolves and no segment
advancement is pending, the call succeeds even for `until` strictly
earlier than the previous sensors' time. -/
theorem no_dt_validation
    (sinQ : ℚ → ℚ) (c : Core) (sp : Setpoint) (t : ℚ) (tr0 : Track)
    (hhead : c.getRoute 0 = .ok tr0)
    (hnp : ¬ tr0.length < c.sensors.relPosition)
    (_ht : t < c.sensors.time) :
    c.UpdateSensorsAcceleration sinQ sp t
      = .ok (computeSensors sinQ c.train tr0 c.sensors sp t false,
             { c with sensors := computeSensors sinQ c.train tr0 c.sensors sp t false }) := by
  unfold Core.UpdateSensorsAcceleration
  rw [hhead]
  dsimp only
  rw [if_neg hnp]

/-- Claim C4 (witness): the amended statement instantiated at
`exCoreFlat` with `until = -1`. -/
theorem no_dt_validation_witness :
    exCoreFlat.getRoute 0 = .ok exTrackFlat ∧
      ¬ exTrackFlat.length < exCoreFlat.sensors.relPosition ∧
      (-1 : ℚ) < exCoreFlat.sensors.time ∧
      exCoreFlat.UpdateSensorsAcceleration sinSample spZero (-1)
        = .ok (exSback, { exCoreFlat with sensors := exSback }) :=
  ⟨rfl, by decide, by decide,
    no_dt_validation sinSample exCoreFlat spZero (-1) exTrackFlat rfl (by decide) (by decide)⟩

/-- Claim C7: the route head is popped exactly when the previous
`relPosition` strictly exceeds the current segment's length: with
`relPosition ≤ length` (equality included) the call keeps the route and
uses the current head; with `relPosition > length` it pops the head,
adopts the next segment, and fails with a route-index error when the
route is empty after the pop. -/
theorem segment_advancement
    (sinQ : ℚ → ℚ) (c : Core) (sp : Setpoint) (t : ℚ) (tr0 : Track)
    (hhead : c.getRoute 0 = .ok tr0) :
    (¬ tr0.length < c.sensors.relPosition →
      c.UpdateSensorsAcceleration sinQ sp t
        = .ok (computeSensors sinQ c.train tr0 c.sensors sp t false,
               { c with sensors := computeSensors sinQ c.train tr0 c.sensors sp t false }) ∧
      (computeSensors sinQ c.train tr0 c.sensors sp t false).trackID = tr0.id) ∧
    (∀ tr1, tr0.length < c.sensors.relPosition →
      c.popRoute.getRoute 0 = .ok tr1 →
      c.UpdateSensorsAcceleration sinQ sp t
        = .ok (computeSensors sinQ c.train tr1 c.sensors sp t true,
               { c.popRoute with sensors := computeSensors sinQ c.train tr1 c.sensors sp t true }) ∧
      (computeSensors sinQ c.train tr1 c.sensors sp t true).trackID = tr1.id) ∧
    (tr0.length < c.sensors.relPosition → c.popRoute.route = [] →
      c.UpdateSensorsAcceleration sinQ sp t = .error (.routeIndex 0)) := by
  refine ⟨?_, ?_, ?_⟩
  · intro hnp
    constructor
    · unfold Core.UpdateSensorsAcceleration
      rw [hhead]
      dsimp only
      rw [if_neg hnp]
    · rfl
  · intro tr1 hp hpop
    constructor
    · unfold Core.UpdateSensorsAcceleration
      rw [hhead]
      dsimp only
      rw [if_pos hp, hpop]
    · rfl
  · intro hp hempty
    unfold Core.UpdateSensorsAcceleration
    rw [hhead]
    dsimp only
    rw [if_pos hp]
    have hpop : c.popRoute.getRoute 0 = .error (.routeIndex 0) := by
      unfold Core.getRoute
      rw [if_pos (Or.inl (by rw [hempty]; simp))]
    rw [hpop]

/-- Claim C7 (witness): the overrun core (`relPosition = 11` on a 10 m
segment) satisfies the hypotheses, and hence all three advancement
conclusions. -/
theorem segment_advancement_witness :
    exCoreOverrun.getRoute 0 = .ok exTrackShort ∧
      ((¬ exTrackShort.length < exCoreOverrun.sensors.relPosition →
        exCoreOverrun.UpdateSensorsAcceleration sinSample spZero 1
          = .ok (computeSensors sinSample exCoreOverrun.train exTrackShort
                   exCoreOverrun.sensors spZero 1 false,
                 { exCoreOverrun with
                     sensors := computeSensors sinSample exCoreOverrun.train exTrackShort
                       exCoreOverrun.sensors spZero 1 false }) ∧
        (computeSensors sinSample exCoreOverrun.train exTrackShort
            exCoreOverrun.sensors spZero 1 false).trackID = exTrackShort.id) ∧
      (∀ tr1, exTrackShort.length < exCoreOverrun.sensors.relPosition →
        exCoreOverrun.popRoute.getRoute 0 = .ok tr1 →
        exCoreOverrun.UpdateSensorsAcceleration sinSample spZero 1
          = .ok (computeSensors sinSample exCoreOverrun.train tr1 exCoreOverrun.sensors spZero 1
                   true,
                 { exCoreOverrun.popRoute with
                     sensors := computeSensors sinSample exCoreOverrun.train tr1
                       exCoreOverrun.sensors spZero 1 true }) ∧
        (computeSensors sinSample exCoreOverrun.train tr1 exCoreOverrun.sensors spZero 1
            true).trackID = tr1.id) ∧
      (exTrackShort.length < exCoreOverrun.sensors.relPosition →
        exCoreOverrun.popRoute.route = [] →
        exCoreOverrun.UpdateSensorsAcceleration sinSample spZero 1 = .error (.routeIndex 0))) :=
  ⟨rfl, segment_advancement sinSample exCoreOverrun spZero 1 exTrackShort rfl⟩

/-- Claim C1 (code bug, evaluated at a failing input): on the descending
track the computed force is `F = -4903.325 N`, so `-F` exceeds
`max_brake = 100`; the spec requires `braking_force = min(-F, max_brake)
= 100 ≥ 0`, but the braking arm of the Go force block assigns
`force = +MaxBrake` and then `BrakingForce = -force`, returning the
negative braking force `-100`. -/
theorem braking_clamp_bug_eval :
    exCoreDown.UpdateSensorsAcceleration sinSample spBrake 1
        = .ok (exBugSensors, { exCoreDown with sensors := exBugSensors }) ∧
      exBugSensors.mass = 1000 ∧
      exBugSensors.acceleration = 0 ∧
      exBugSensors.resistance = -(4903325 / 1000) ∧
      exBugSensors.mass * exTrain.massFactor * exBugSensors.acceleration
          + exBugSensors.resistance = -(4903325 / 1000) ∧
      exTrain.maxBrake < 4903325 / 1000 ∧
      min (4903325 / 1000 : ℚ) exTrain.maxBrake = 100 ∧
      exBugSensors.tractionForce = 0 ∧
      exBugSensors.brakingForce = -100 ∧
      exBugSensors.brakingForce ≠ min (4903325 / 1000 : ℚ) exTrain.maxBrake ∧
      ¬ 0 ≤ exBugSensors.brakingForce := by
  refine ⟨rfl, ?_, ?_, ?_, ?_, ?_, ?_, ?_, ?_, ?_, ?_⟩ <;>
    norm_num [exBugSensors, computeSensors, csForce, csAV, csClamp, csRes, csLineRes,
      forceF, accClampF, afterGuards, reverseGuard1, reverseGuard2, newVelocity, newMass,
      newRelPosition, newPosition, dSec, basicResF, slopeResF, curveResF, tunnelResF,
      maxAccF, maxDecF, FloatVal.ltv, FloatVal.gtv, FloatVal.toQ, sinSample, exTrain,
      exTrackDown, exSensors, spBrake, gravity, max_def, min_def]

/-- Claim C2 (counterexample): on the ascending track `a_max` is negative
(`-156133/40000`); the setpoint `-7/2` exceeds `a_max` but is not
positive, so the `setpoint > 0` conjunct of the Go clamp skips the
branch: no Acceleration warning is recorded and the returned acceleration
is the setpoint itself, not `a_max`. -/
theorem accel_warning_sign_counterexample :
    exCoreUp.UpdateSensorsAcceleration sinSample spMid 1
        = .ok (exC2Sensors, { exCoreUp with sensors := exC2Sensors }) ∧
      exC2Sensors.mass = 1000 ∧
      exC2Sensors.resistance = 196133 / 40 ∧
      maxAccF exTrain exC2Sensors.mass exC2Sensors.resistance = -(156133 / 40000) ∧
      spMid.value.gtv (maxAccF exTrain exC2Sensors.mass exC2Sensors.resistance) ∧
      exC2Sensors.acceleration = -(7 / 2) ∧
      exC2Sensors.acceleration ≠ maxAccF exTrain exC2Sensors.mass exC2Sensors.resistance ∧
      ∀ w ∈ exC2Sensors.warnings.outOfBounds, w.type ≠ AccelerationError := by
  refine ⟨rfl, ?_, ?_, ?_, ?_, ?_, ?_, ?_⟩ <;>
    norm_num [exC2Sensors, computeSensors, csForce, csAV, csClamp, csRes, csLineRes,
      forceF, accClampF, afterGuards, reverseGuard1, reverseGuard2, newVelocity, newMass,
      newRelPosition, newPosition, dSec, basicResF, slopeResF, curveResF, tunnelResF,
      maxAccF, maxDecF, FloatVal.ltv, FloatVal.gtv, FloatVal.toQ, sinSample, exTrain,
      exTrackUp, exSensors, spMid, gravity, max_def, min_def, velocityWarnings,
      VelocityError, AccelerationError, ForceError]
  decide

/-- Claim C2 (amended): a successful call whose setpoint value is finite,
positive and exceeds `a_max = (max_traction - resistance) / (mass * mass_factor)`
records an Acceleration OutOfBounds warning and returns acceleration
`a_max`, provided the `velocity == 0.01` reverse guard does not apply;
for non-positive setpoints the branch is skipped entirely. -/
theorem accel_clamp_positive_setpoint
    (sinQ : ℚ → ℚ) (c : Core) (sp : Setpoint) (t : ℚ) (s : Sensors) (c' : Core) (x : ℚ)
    (h : c.UpdateSensorsAcceleration sinQ sp t = .ok (s, c'))
    (hval : sp.value = .fin x) (hx : 0 < x)
    (hgt : maxAccF c.train s.mass s.resistance < x)
    (hg : ¬ (newVelocity c.sensors t = 1 / 100 ∧ maxAccF c.train s.mass s.resistance < 0)) :
    s.acceleration = maxAccF c.train s.mass s.resistance ∧
      { type := AccelerationError, min := maxDecF c.train s.mass s.resistance,
        max := maxAccF c.train s.mass s.resistance, value := x } ∈ s.warnings.outOfBounds := by
  obtain ⟨track, b, rfl⟩ := update_ok_shape h
  have hm : (computeSensors sinQ c.train track c.sensors sp t b).mass
      = newMass c.train c.sensors := rfl
  have hr : (computeSensors sinQ c.train track c.sensors sp t b).resistance
      = csRes sinQ c.train track c.sensors t b := rfl
  rw [hm, hr] at hgt hg ⊢
  have hclamp : csClamp sinQ c.train track c.sensors sp t b
      = (maxAccF c.train (newMass c.train c.sensors) (csRes sinQ c.train track c.sensors t b),
         [{ type := AccelerationError,
            min := maxDecF c.train (newMass c.train c.sensors)
              (csRes sinQ c.train track c.sensors t b),
            max := maxAccF c.train (newMass c.train c.sensors)
              (csRes sinQ c.train track c.sensors t b),
            value := x }]) := by
    unfold csClamp accClampF
    rw [hval]
    rw [if_pos (show (FloatVal.fin x).gtv 0 ∧ (FloatVal.fin x).gtv _ from ⟨hx, hgt⟩)]
    rfl
  have hav : csAV sinQ c.train track c.sensors sp t b
      = (maxAccF c.train (newMass c.train c.sensors) (csRes sinQ c.train track c.sensors t b),
         newVelocity c.sensors t) := by
    unfold csAV
    rw [hclamp, hval]
    exact afterGuards_id _ _ _ (not_lt.mpr hx.le) hg
  constructor
  · show (csAV sinQ c.train track c.sensors sp t b).1 = _
    rw [hav]
  · show _ ∈ velocityWarnings c.train track (newVelocity c.sensors t)
        ++ (csClamp sinQ c.train track c.sensors sp t b).2
        ++ (csForce sinQ c.train track c.sensors sp t b).warns
    rw [hclamp]
    simp

/-- Claim C2 (witness): a positive setpoint `2 m/s²` above the
`a_max = 149/150` of the small train triggers the warning and the
clamp. -/
theorem accel_clamp_positive_setpoint_witness :
    exCoreSmall.UpdateSensorsAcceleration sinSample spTwo 1
        = .ok (exC2WSensors, { exCoreSmall with sensors := exC2WSensors }) ∧
      spTwo.value = .fin 2 ∧ (0 : ℚ) < 2 ∧
      maxAccF exTrainSmall exC2WSensors.mass exC2WSensors.resistance < 2 ∧
      ¬ (newVelocity exCoreSmall.sensors 1 = 1 / 100 ∧
          maxAccF exTrainSmall exC2WSensors.mass exC2WSensors.resistance < 0) ∧
      (exC2WSensors.acceleration
          = maxAccF exTrainSmall exC2WSensors.mass exC2WSensors.resistance ∧
        { type := AccelerationError,
          min := maxDecF exTrainSmall exC2WSensors.mass exC2WSensors.resistance,
          max := maxAccF exTrainSmall exC2WSensors.mass exC2WSensors.resistance, value := 2 }
          ∈ exC2WSensors.warnings.outOfBounds) :=
  ⟨rfl, rfl, by norm_num,
    by norm_num [exC2WSensors, computeSensors, csRes, csLineRes, newMass, newVelocity,
      newRelPosition, dSec, basicResF, slopeResF, curveResF, tunnelResF, maxAccF, maxDecF,
      sinSample, exTrainSmall, exTrackFlat, exSensors, exCoreSmall, gravity, max_def],
    by norm_num [exC2WSensors, computeSensors, csRes, csLineRes, newMass, newVelocity,
      newRelPosition, dSec, basicResF, slopeResF, curveResF, tunnelResF, maxAccF, maxDecF,
      sinSample, exTrainSmall, exTrackFlat, exSensors, exCoreSmall, gravity, max_def],
    accel_clamp_positive_setpoint sinSample exCoreSmall spTwo 1 exC2WSensors _ 2 rfl rfl
      (by norm_num)
      (by norm_num [exC2WSensors, computeSensors, csRes, csLineRes, newMass, newVelocity,
        newRelPosition, dSec, basicResF, slopeResF, curveResF, tunnelResF, maxAccF, maxDecF,
        sinSample, exTrainSmall, exTrackFlat, exSensors, exCoreSmall, gravity, max_def])
      (by norm_num [exC2WSensors, computeSensors, csRes, csLineRes, newMass, newVelocity,
        newRelPosition, dSec, basicResF, slopeResF, curveResF, tunnelResF, maxAccF, maxDecF,
        sinSample, exTrainSmall, exTrackFlat, exSensors, exCoreSmall, gravity, max_def])⟩

/-- Popping the route head changes neither the train nor the track map. -/
theorem popRoute_train (c : Core) : c.popRoute.train = c.train := by
  unfold Core.popRoute
  split_ifs <;> rfl

/-- Fixed-point lemma for the engine body: re-running `computeSensors`
over `Δt = 0` from its own output (same track, same setpoint, same target
instant) reproduces the output exactly, provided the no-reverse clamp did
not zero a strictly positive sub-`0.01` integrated velocity and the
heartbeat condition evaluates the same against the previous call's
setpoint timestamp. -/
theorem computeSensors_stable (sinQ : ℚ → ℚ) (train : Train) (track : Track) (prev : Sensors)
    (sp : Setpoint) (t : ℚ) (b : Bool)
    (hnr : ¬ (sp.value.ltv 0 ∧ 0 < newVelocity prev t ∧ newVelocity prev t < 1 / 100))
    (hhb : (updateTimeout ≤ t - sp.time) ↔ (updateTimeout ≤ t - prev.setpoint.time)) :
    computeSensors sinQ train track (computeSensors sinQ train track prev sp t b) sp t false
      = computeSensors sinQ train track prev sp t b := by
  set s := computeSensors sinQ train track prev sp t b with hs
  have htime : s.time = t := rfl
  have hsp2 : s.setpoint = sp := rfl
  have hnum : s.numPassengers = prev.numPassengers := rfl
  have hd : dSec s t = 0 := by unfold dSec; rw [htime]; ring
  have hvel : s.velocity = newVelocity prev t := by
    show (csAV sinQ train track prev sp t b).2 = newVelocity prev t
    unfold csAV
    rw [afterGuards_snd]
    split_ifs with hcond
    · rcases hcond with ⟨hlt, hsm⟩
      have h0 : ¬ 0 < newVelocity prev t := fun hpos => hnr ⟨hlt, hpos, hsm⟩
      exact le_antisymm (newVelocity_nonneg prev t) (not_lt.mp h0)
    · rfl
  have hvnn : 0 ≤ s.velocity := by rw [hvel]; exact newVelocity_nonneg prev t
  have hv2 : newVelocity s t = newVelocity prev t := by
    have h1 : newVelocity s t = s.velocity := by
      unfold newVelocity
      rw [hd, zero_mul, add_zero]
      exact max_eq_right hvnn
    rw [h1, hvel]
  have hm2 : newMass train s = newMass train prev := by
    unfold newMass
    rw [hnum]
  have hrel2 : newRelPosition s t false = newRelPosition prev t b := by
    have h1 : newRelPosition s t false = s.relPosition := by
      unfold newRelPosition
      rw [if_neg (by simp), hd, mul_zero, add_zero]
    exact h1
  have hpos2 : newPosition s t = s.position := by
    unfold newPosition
    rw [hd, mul_zero, add_zero]
  have hres2 : csRes sinQ train track s t false = csRes sinQ train track prev t b := by
    unfold csRes csLineRes
    rw [hv2, hm2, hrel2]
  have hline2 : csLineRes sinQ train track s t false = csLineRes sinQ train track prev t b := by
    unfold csLineRes
    rw [hv2, hm2, hrel2]
  have hclamp2 : csClamp sinQ train track s sp t false
      = csClamp sinQ train track prev sp t b := by
    unfold csClamp
    rw [hres2, hm2]
  have hav2 : csAV sinQ train track s sp t false = csAV sinQ train track prev sp t b := by
    unfold csAV
    rw [hclamp2, hv2]
  have hfo2 : csForce sinQ train track s sp t false = csForce sinQ train track prev sp t b := by
    unfold csForce
    rw [hav2, hres2, hm2]
  have hhb2 : heartbeatF s.setpoint.time sp.time t
      = heartbeatF prev.setpoint.time sp.time t := by
    rw [hsp2]
    unfold heartbeatF
    by_cases hc : updateTimeout ≤ t - sp.time
    · rw [if_pos hc, if_pos (hhb.mp hc)]
    · rw [if_neg hc, if_neg (fun hx => hc (hhb.mpr hx))]
  have hbasic2 : basicResF train (newMass train s) track.slope (newVelocity s t)
      = basicResF train (newMass train prev) track.slope (newVelocity prev t) := by
    rw [hm2, hv2]
  have hslope2 : slopeResF sinQ (newMass train s) track.slope
      = slopeResF sinQ (newMass train prev) track.slope := by
    rw [hm2]
  have hcurve2 : curveResF track (newMass train s) (newVelocity s t)
      = curveResF track (newMass train prev) (newVelocity prev t) := by
    rw [hm2, hv2]
  have htun2 : tunnelResF track (newRelPosition s t false) (newVelocity s t)
      = tunnelResF track (newRelPosition prev t b) (newVelocity prev t) := by
    rw [hrel2, hv2]
  have hw2 : Warnings.mk
        (velocityWarnings train track (newVelocity s t)
          ++ (csClamp sinQ train track s sp t false).2
          ++ (csForce sinQ train track s sp t false).warns) []
      = Warnings.mk
        (velocityWarnings train track (newVelocity prev t)
          ++ (csClamp sinQ train track prev sp t b).2
          ++ (csForce sinQ train track prev sp t b).warns) [] := by
    rw [hv2, hclamp2, hfo2]
  have ha2 : Warnings.mk [] (heartbeatF s.setpoint.time sp.time t)
      = Warnings.mk [] (heartbeatF prev.setpoint.time sp.time t) := by
    rw [hhb2]
  refine Sensors.ext ?_ ?_ ?_ ?_ ?_ ?_ ?_ ?_ ?_ ?_ ?_ ?_ ?_ ?_ ?_ ?_ ?_ ?_ ?_ ?_ ?_ ?_ ?_ ?_
  · exact rfl
  · exact rfl
  · exact hpos2
  · exact congrArg Prod.snd hav2
  · exact congrArg Prod.fst hav2
  · exact congrArg ForceOut.tractionForce hfo2
  · exact congrArg ForceOut.brakingForce hfo2
  · exact congrArg ForceOut.tractionPower hfo2
  · exact congrArg ForceOut.brakingPower hfo2
  · exact hm2
  · exact rfl
  · exact hrel2
  · exact rfl
  · exact rfl
  · exact rfl
  · exact hres2
  · exact hbasic2
  · exact hslope2
  · exact hcurve2
  · exact htun2
  · exact hline2
  · exact rfl
  · exact hw2
  · exact ha2

/-- Claim C9 (amended): calling `UpdateSensorsAcceleration` again with
`Δt = 0` (the same `until`) and the same setpoint returns exactly the
previous sensors and leaves the core unchanged, provided the previous
call succeeded, its output lies within the current segment
(`relPosition ≤ length`, so no segment advancement intervenes), the
no-reverse clamp did not zero a strictly positive integrated velocity
below `0.01`, and the heartbeat condition agrees between the two calls
(the alarms are re-evaluated against the new setpoint's timestamp and
would otherwise differ). -/
theorem dt_zero_idempotent
    (sinQ : ℚ → ℚ) (c : Core) (sp : Setpoint) (t : ℚ)
    (s₁ : Sensors) (c₁ : Core) (track : Track)
    (h1 : c.UpdateSensorsAcceleration sinQ sp t = .ok (s₁, c₁))
    (htr : c₁.getRoute 0 = .ok track)
    (hrel : s₁.relPosition ≤ track.length)
    (hnr : ¬ (sp.value.ltv 0 ∧ 0 < newVelocity c.sensors t ∧ newVelocity c.sensors t < 1 / 100))
    (hhb : (updateTimeout ≤ t - sp.time) ↔ (updateTimeout ≤ t - c.sensors.setpoint.time)) :
    c₁.UpdateSensorsAcceleration sinQ sp t = .ok (s₁, c₁) := by
  unfold Core.UpdateSensorsAcceleration at h1
  cases h0 : c.getRoute 0 with
  | error e => rw [h0] at h1; simp at h1
  | ok track0 =>
    rw [h0] at h1
    dsimp only at h1
    split_ifs at h1 with hb
    · cases h2 : c.popRoute.getRoute 0 with
      | error e => rw [h2] at h1; simp at h1
      | ok track1 =>
        rw [h2] at h1
        simp only [Except.ok.injEq, Prod.mk.injEq] at h1
        obtain ⟨hS, hC⟩ := h1
        subst hS
        subst hC
        have h2' : ({ c.popRoute with
            sensors := computeSensors sinQ c.train track1 c.sensors sp t true } : Core).getRoute 0
            = .ok track1 := h2
        have htrk : track = track1 := by
          rw [h2'] at htr
          exact (Except.ok.inj htr).symm
        subst htrk
        unfold Core.UpdateSensorsAcceleration
        rw [h2']
        dsimp only
        rw [if_neg (not_lt.mpr hrel)]
        simp only [popRoute_train]
        rw [computeSensors_stable sinQ c.train track c.sensors sp t true hnr hhb]
    · simp only [Except.ok.injEq, Prod.mk.injEq] at h1
      obtain ⟨hS, hC⟩ := h1
      subst hS
      subst hC
      have h0' : ({ c with
          sensors := computeSensors sinQ c.train track0 c.sensors sp t false } : Core).getRoute 0
          = .ok track0 := h0
      have htrk : track = track0 := by
        rw [h0'] at htr
        exact (Except.ok.inj htr).symm
      subst htrk
      unfold Core.UpdateSensorsAcceleration
      rw [h0']
      dsimp only
      rw [if_neg (not_lt.mpr hrel)]
      rw [computeSensors_stable sinQ c.train track c.sensors sp t false hnr hhb]

/-- When the route head resolves and no segment advancement is pending,
`UpdateSensorsAcceleration` succeeds with the body's output. -/
theorem update_ok_of_no_advance
    (sinQ : ℚ → ℚ) (c : Core) (sp : Setpoint) (t : ℚ) (tr0 : Track)
    (hhead : c.getRoute 0 = .ok tr0)
    (hnp : ¬ tr0.length < c.sensors.relPosition) :
    c.UpdateSensorsAcceleration sinQ sp t
      = .ok (computeSensors sinQ c.train tr0 c.sensors sp t false,
             { c with sensors := computeSensors sinQ c.train tr0 c.sensors sp t false }) := by
  unfold Core.UpdateSensorsAcceleration
  rw [hhead]
  dsimp only
  rw [if_neg hnp]

/-- Claim C9 (counterexample): starting from `exCoreFlat` (whose setpoint
is 6 s stale) at `until = 6`, the first call records a heartbeat alarm;
the second call with `Δt = 0` and the same setpoint returns sensors whose
recomputed alarms are empty (the heartbeat is re-evaluated against the
fresh setpoint timestamp), so the result differs from the previous
sensors although `Δt = 0` and the setpoint is unchanged. -/
theorem dt_zero_heartbeat_counterexample :
    exCoreFlat.UpdateSensorsAcceleration sinSample spZero6 6
        = .ok (exS6, { exCoreFlat with sensors := exS6 }) ∧
      ({ exCoreFlat with sensors := exS6 } : Core).UpdateSensorsAcceleration sinSample spZero6 6
        = .ok (exS6b, { exCoreFlat with sensors := exS6b }) ∧
      exS6b.time = exS6.time ∧
      exS6.alarms.heartbeat = [{ lastTime := 6, threshold := 5 }] ∧
      exS6b.alarms.heartbeat = [] ∧
      exS6b ≠ exS6 := by
  have h1 : exS6.alarms.heartbeat = [{ lastTime := 6, threshold := 5 }] := by
    norm_num [exS6, computeSensors, heartbeatF, updateTimeout, exSensors, spZero6]
  have h2 : exS6b.alarms.heartbeat = [] := by
    norm_num [exS6b, exS6, computeSensors, heartbeatF, updateTimeout, exSensors, spZero6]
  have hnp2 : ¬ ((exTrackFlat : Track).length
      < ({ exCoreFlat with sensors := exS6 } : Core).sensors.relPosition) := by
    norm_num [exCoreFlat, exS6, computeSensors, newRelPosition, newVelocity, dSec, exSensors,
      exTrackFlat, max_def]
  refine ⟨rfl, update_ok_of_no_advance sinSample _ spZero6 6 exTrackFlat rfl hnp2, rfl, h1, h2,
    ?_⟩
  intro h
  rw [h, h1] at h2
  cases h2

/-- Claim C9 (witness): with a fresh setpoint (no heartbeat in either
call) the `Δt = 0` re-run of `exCoreFlat`'s one-second step reproduces
`exS1` and leaves the core unchanged. -/
theorem dt_zero_idempotent_witness :
    exCoreFlat.UpdateSensorsAcceleration sinSample spZero 1
        = .ok (exS1, { exCoreFlat with sensors := exS1 }) ∧
      ({ exCoreFlat with sensors := exS1 } : Core).getRoute 0 = .ok exTrackFlat ∧
      exS1.relPosition ≤ exTrackFlat.length ∧
      ¬ (spZero.value.ltv 0 ∧ 0 < newVelocity exCoreFlat.sensors 1 ∧
          newVelocity exCoreFlat.sensors 1 < 1 / 100) ∧
      ((updateTimeout ≤ (1 : ℚ) - spZero.time)
        ↔ (updateTimeout ≤ (1 : ℚ) - exCoreFlat.sensors.setpoint.time)) ∧
      ({ exCoreFlat with sensors := exS1 } : Core).UpdateSensorsAcceleration sinSample spZero 1
        = .ok (exS1, { exCoreFlat with sensors := exS1 }) :=
  ⟨rfl, rfl,
    by norm_num [exS1, computeSensors, newRelPosition, newVelocity, dSec, exSensors,
      exTrackFlat, max_def],
    by norm_num [spZero, FloatVal.ltv],
    Iff.rfl,
    dt_zero_idempotent sinSample exCoreFlat spZero 1 exS1 _ exTrackFlat rfl rfl
      (by norm_num [exS1, computeSensors, newRelPosition, newVelocity, dSec, exSensors,
        exTrackFlat, max_def])
      (by norm_num [spZero, FloatVal.ltv])
      Iff.rfl⟩
